import Mathlib

/-!
Shallow embedding of `src/matlab/VectorWrapper.h` from the Gerardus
repository.

The header defines a compile-time adapter `VectorWrapper<VectorValueType,
VectorType, MatlabValueType>` that reads numeric data out of a Matlab
`mxArray` into one of several destination vector types.  The primary
template targets `std::vector`; partial specialisations target the ITK
fixed-size types `itk::Size`, `itk::FixedArray`, `itk::Point` and
`itk::Vector` of dimensions 2, 3 and 4, and the CGAL types
`Point_3` (over three kernels) and `Direction_3` (over
`Simple_cartesian<double>`).  Every specialised method body merely
delegates to a per-family helper (`ReadItkRowVector`, `ReadItkSize`,
`ReadItkHalfSize`, `ReadCgalRowVector`).

The helper bodies live in `VectorWrapper.hxx`, which is not among the
sources; where a claim depends on them they are modelled from the spec,
and each such definition says so in its doc comment.
-/

/-- Matlab runtime class identifiers (`mxClassID`) for numeric arrays.
The `MatlabValueType` template parameter of the C++ code fixes which of
these the input buffer is expected to hold. -/
inductive MatlabClass
  | mxDouble
  | mxSingle
  | mxInt8
  | mxUint8
  | mxInt16
  | mxUint16
  | mxInt32
  | mxUint32
  | mxInt64
  | mxUint64
  deriving DecidableEq, Repr

/-- A Matlab two-dimensional numeric array (`mxArray`): a runtime class
identifier, dimensions, and entries indexed by (row, column).  `entry` is
total, mirroring the fact that the C++ code addresses raw memory; claims
about reads only ever constrain in-range positions. -/
structure MxArray (α : Type) where
  classId : MatlabClass
  rows : Nat
  cols : Nat
  entry : Nat → Nat → α

/-- The CGAL kernels appearing in the header's CGAL specialisations
(lines 289-292). -/
inductive CgalKernel
  | simpleCartesianDouble
  | exactPredicatesExactConstructions
  | exactPredicatesInexactConstructions
  deriving DecidableEq, Repr

/-- Shapes a destination (`VectorType`) template argument can take, as
far as the header's partial specialisations can discriminate them.
`otherType` stands for any C++ type matching none of the listed
patterns. -/
inductive DestType
  | stdVector
  | itkSize (dim : Nat)
  | itkFixedArray (dim : Nat)
  | itkPoint (dim : Nat)
  | itkVector (dim : Nat)
  | cgalPoint3 (k : CgalKernel)
  | cgalDirection3 (k : CgalKernel)
  | otherType (name : String)
  deriving DecidableEq, Repr

/-- The three families of conversion routines that a specialisation of
`VectorWrapper` can delegate to. -/
inductive Routine
  | defaultStdVector
  | itkRoutine
  | cgalRoutine
  deriving DecidableEq, Repr

/-- Which specialisation of `VectorWrapper` C++ overload resolution
selects for a given destination type: the ITK specialisations exist for
`itk::Size`, `itk::FixedArray`, `itk::Point` and `itk::Vector` of
dimensions 2, 3 and 4 (header lines 159-246); the CGAL ones for
`Point_3` over the three kernels and `Direction_3` over
`Simple_cartesian<double>` (lines 289-292); everything else falls back
to the primary template (lines 99-116). -/
def dispatch : DestType → Routine
  | DestType.itkSize d =>
      if d = 2 ∨ d = 3 ∨ d = 4 then Routine.itkRoutine else Routine.defaultStdVector
  | DestType.itkFixedArray d =>
      if d = 2 ∨ d = 3 ∨ d = 4 then Routine.itkRoutine else Routine.defaultStdVector
  | DestType.itkPoint d =>
      if d = 2 ∨ d = 3 ∨ d = 4 then Routine.itkRoutine else Routine.defaultStdVector
  | DestType.itkVector d =>
      if d = 2 ∨ d = 3 ∨ d = 4 then Routine.itkRoutine else Routine.defaultStdVector
  | DestType.cgalPoint3 _ => Routine.cgalRoutine
  | DestType.cgalDirection3 k =>
      if k = CgalKernel.simpleCartesianDouble then Routine.cgalRoutine
      else Routine.defaultStdVector
  | DestType.stdVector => Routine.defaultStdVector
  | DestType.otherType _ => Routine.defaultStdVector

/-- The fixed dimension a specialised destination type carries: the
`dim` template argument for the ITK types, 3 for the CGAL point and
direction types.  Unused by the dynamically sized default. -/
def fixedDim : DestType → Nat
  | DestType.itkSize d => d
  | DestType.itkFixedArray d => d
  | DestType.itkPoint d => d
  | DestType.itkVector d => d
  | DestType.cgalPoint3 _ => 3
  | DestType.cgalDirection3 _ => 3
  | DestType.stdVector => 0
  | DestType.otherType _ => 0

/-- Modelled from the spec: the body of `ReadItkRowVector` lives in
`VectorWrapper.hxx`, which is missing from the sources; only its
declaration (header lines 131-133) is present.  Per the spec it performs
a "row read": "extracting one row of a two-dimensional numeric buffer as
a fixed-length sequence of scalars", i.e. it copies the `N` scalars of
row `row` into the destination, converting each from `MatlabValueType`
to the destination element type (`conv`), and its only failure mode is a
type or size mismatch between the Matlab input and the destination
type. -/
def ReadItkRowVector (expected : MatlabClass) (conv : α → β) (N : Nat)
    (pm : MxArray α) (row : Nat) (paramName : String) : Except String (List β) :=
  if pm.classId = expected ∧ pm.cols = N then
    Except.ok ((List.range N).map fun j => conv (pm.entry row j))
  else
    Except.error (paramName ++ " must be a numeric row vector of the expected type and length")

/-- Modelled from the spec: the body of `ReadItkSize` lives in
`VectorWrapper.hxx`, which is missing from the sources.  Per the header
comment (line 112) it reads the argument into a size vector; it copies
the `N` scalars of the (single) input row, failing exactly on a type or
size mismatch. -/
def ReadItkSize (expected : MatlabClass) (conv : α → Nat) (N : Nat)
    (pm : MxArray α) (paramName : String) : Except String (List Nat) :=
  if pm.classId = expected ∧ pm.cols = N then
    Except.ok ((List.range N).map fun j => conv (pm.entry 0 j))
  else
    Except.error (paramName ++ " must be a numeric row vector of the expected type and length")

/-- Modelled from the spec: the body of `ReadItkHalfSize` lives in
`VectorWrapper.hxx`, which is missing from the sources.  Per the header
comment (line 112), the full size is derived from each half size `m`
read from the input as `size = 2 * m + 1`; it fails exactly on a type or
size mismatch. -/
def ReadItkHalfSize (expected : MatlabClass) (conv : α → Nat) (N : Nat)
    (pm : MxArray α) (paramName : String) : Except String (List Nat) :=
  if pm.classId = expected ∧ pm.cols = N then
    Except.ok ((List.range N).map fun j => 2 * conv (pm.entry 0 j) + 1)
  else
    Except.error (paramName ++ " must be a numeric row vector of the expected type and length")

/-- Modelled from the spec: the body of `ReadCgalRowVector` lives in
`VectorWrapper.hxx`, which is missing from the sources; only its
declaration (header lines 267-269) is present.  The CGAL destinations
(`Point_3`, `Direction_3`) are 3-dimensional and constructor-populated,
so it reads the 3 scalars of row `row`, converting each, and fails
exactly on a type or size mismatch. -/
def ReadCgalRowVector (expected : MatlabClass) (conv : α → β)
    (pm : MxArray α) (row : Nat) (paramName : String) : Except String (List β) :=
  if pm.classId = expected ∧ pm.cols = 3 then
    Except.ok [conv (pm.entry row 0), conv (pm.entry row 1), conv (pm.entry row 2)]
  else
    Except.error (paramName ++ " must be a numeric row vector of the expected type and length 3")

/-- Modelled from the spec: the primary template's `ReadRowVector` into
`std::vector` is declared at header line 107 but implemented in the
missing `VectorWrapper.hxx`.  The destination is dynamically sized, so
it copies the whole row (all `cols` scalars), failing exactly on a type
mismatch. -/
def stdReadRowVector (expected : MatlabClass) (conv : α → β)
    (pm : MxArray α) (row : Nat) (paramName : String) : Except String (List β) :=
  if pm.classId = expected then
    Except.ok ((List.range pm.cols).map fun j => conv (pm.entry row j))
  else
    Except.error (paramName ++ " must be a numeric array of the expected type")

/-- Modelled from the spec: the primary template's `ReadArrayAsVector`
(header line 110) reads a whole array into a dynamically sized vector,
in Matlab's column-major memory order, failing exactly on a type
mismatch.  Implemented in the missing `VectorWrapper.hxx`. -/
def stdReadArrayAsVector (expected : MatlabClass) (conv : α → β)
    (pm : MxArray α) (paramName : String) : Except String (List β) :=
  if pm.classId = expected then
    Except.ok ((List.range (pm.rows * pm.cols)).map fun k =>
      conv (pm.entry (k % pm.rows) (k / pm.rows)))
  else
    Except.error (paramName ++ " must be a numeric array of the expected type")

/-- The member `ReadRowVector` as a caller of `VectorWrapper` sees it:
C++ overload resolution picks the specialisation (`dispatch`), and the
selected member body delegates to the family helper — the ITK
specialisations' bodies are the macro `MethodsVectorWrapperItk` (header
lines 146-149), the CGAL ones the macro `VectorWrapperCgal` (lines
278-281), and the primary template reads into `std::vector`. -/
def wrapperReadRowVector (d : DestType) (expected : MatlabClass) (conv : α → β)
    (pm : MxArray α) (row : Nat) (paramName : String) : Except String (List β) :=
  match dispatch d with
  | Routine.itkRoutine => ReadItkRowVector expected conv (fixedDim d) pm row paramName
  | Routine.cgalRoutine => ReadCgalRowVector expected conv pm row paramName
  | Routine.defaultStdVector => stdReadRowVector expected conv pm row paramName

/-- Stand-ins for the `VectorValueType` template argument of the CGAL
specialisations; the header (lines 258-260) notes it is ignored there
and may be set to `void`. -/
inductive CppScalarTag
  | voidTag
  | doubleTag
  | floatTag
  | int32Tag
  | uint32Tag
  deriving DecidableEq, Repr

/-- The CGAL specialisations' two-overload member `ReadRowVector`
with explicit row (macro `VectorWrapperCgal`, header lines 278-281):
`return ReadCgalRowVector<VectorType, MatlabValueType>(pm, row,
paramName);`.  The enclosing class's `VectorValueType` argument `vvt`
does not occur in the body. -/
def VectorWrapperCgal.ReadRowVector (_vvt : CppScalarTag) (expected : MatlabClass)
    (conv : α → β) (pm : MxArray α) (row : Nat) (paramName : String) :
    Except String (List β) :=
  ReadCgalRowVector expected conv pm row paramName

/-- The CGAL specialisations' one-argument overload of `ReadRowVector`
(macro `VectorWrapperCgal`, header lines 282-285): `return
ReadCgalRowVector<VectorType, MatlabValueType>(pm, 0, paramName);`.  As
above, `vvt` does not occur in the body. -/
def VectorWrapperCgal.ReadRowVectorNoRow (_vvt : CppScalarTag) (expected : MatlabClass)
    (conv : α → β) (pm : MxArray α) (paramName : String) :
    Except String (List β) :=
  ReadCgalRowVector expected conv pm 0 paramName

/-- Names of the read members a `VectorWrapper` specialisation can
declare. -/
inductive ReadOp
  | readRowVector
  | readRowVectorNoRow
  | readArrayAsVector
  | readSize
  | readHalfSize
  deriving DecidableEq, Repr

/-- The set of read members each specialisation family declares,
transcribed from the header: the primary template declares
`ReadRowVector`, `ReadArrayAsVector`, `ReadSize` and `ReadHalfSize`
(lines 106-114); the ITK macro `MethodsVectorWrapperItk` declares
`ReadRowVector`, `ReadSize` and `ReadHalfSize` (lines 143-157); the CGAL
macro `VectorWrapperCgal` declares the two `ReadRowVector` overloads
(lines 278-285). -/
def interfaceOf : Routine → List ReadOp
  | Routine.defaultStdVector =>
      [ReadOp.readRowVector, ReadOp.readArrayAsVector, ReadOp.readSize, ReadOp.readHalfSize]
  | Routine.itkRoutine =>
      [ReadOp.readRowVector, ReadOp.readSize, ReadOp.readHalfSize]
  | Routine.cgalRoutine =>
      [ReadOp.readRowVector, ReadOp.readRowVectorNoRow]

/-- A `VectorWrapper` object: the class declares no data members in any
specialisation — only a default constructor and the read methods
(header lines 99-116, 143-157, 271-286). -/
structure VectorWrapper where

/-- A call of the read member through a wrapper object, with the object
and the (const-pointer) input array threaded explicitly so that
mutation, were there any, would be visible: the call returns the result
together with the object and array as they stand after the call. -/
def VectorWrapper.callReadRowVector (w : VectorWrapper) (d : DestType)
    (expected : MatlabClass) (conv : α → β) (pm : MxArray α) (row : Nat)
    (paramName : String) :
    Except String (List β) × VectorWrapper × MxArray α :=
  (wrapperReadRowVector d expected conv pm row paramName, w, pm)

/-- Concrete 2-by-3 double array used by the closed witnesses. -/
def pmEx : MxArray Int :=
  { classId := MatlabClass.mxDouble, rows := 2, cols := 3,
    entry := fun i j => (i : Int) + 2 * j }

/-- Concrete array whose class id mismatches `mxDouble`, used by the
closed witnesses for the failure direction. -/
def pmBad : MxArray Int :=
  { classId := MatlabClass.mxSingle, rows := 2, cols := 3,
    entry := fun i j => (i : Int) + 2 * j }

/-- Helper: a read of the shape `if c then ok v else error e` succeeds
exactly when the guard holds. -/
theorem exists_ok_ite {β : Type} {c : Prop} [Decidable c] (v : List β) (e : String) :
    (∃ l, (if c then Except.ok v else Except.error e) = Except.ok l) ↔ c := by
  split_ifs with h
  · simp [h]
  · simp [h]

/-- C1: `ReadRowVector` is pure compile-time dispatch — for every ITK
target type the member returns exactly `ReadItkRowVector` on the same
arguments, and for every CGAL target type it returns exactly
`ReadCgalRowVector` on the same arguments, with no other computation in
the wrapper itself. -/
theorem c1_pure_compile_time_dispatch :
    (∀ d : DestType, dispatch d = Routine.itkRoutine →
      ∀ (α β : Type) (expected : MatlabClass) (conv : α → β) (pm : MxArray α)
        (row : Nat) (paramName : String),
        wrapperReadRowVector d expected conv pm row paramName
          = ReadItkRowVector expected conv (fixedDim d) pm row paramName)
    ∧
    (∀ d : DestType, dispatch d = Routine.cgalRoutine →
      ∀ (α β : Type) (expected : MatlabClass) (conv : α → β) (pm : MxArray α)
        (row : Nat) (paramName : String),
        wrapperReadRowVector d expected conv pm row paramName
          = ReadCgalRowVector expected conv pm row paramName) := by
  constructor <;>
    · intro d hd α β expected conv pm row paramName
      simp [wrapperReadRowVector, hd]

/-- Closed witness for C1 at `itk::Size<3>` and at
`CGAL::Point_3<CGAL::Simple_cartesian<double>>`. -/
theorem c1_witness :
    wrapperReadRowVector (DestType.itkSize 3) MatlabClass.mxDouble
        (fun x : Int => x) pmEx 1 "p"
      = ReadItkRowVector MatlabClass.mxDouble (fun x : Int => x)
          (fixedDim (DestType.itkSize 3)) pmEx 1 "p"
    ∧ wrapperReadRowVector (DestType.cgalPoint3 CgalKernel.simpleCartesianDouble)
        MatlabClass.mxDouble (fun x : Int => x) pmEx 0 "p"
      = ReadCgalRowVector MatlabClass.mxDouble (fun x : Int => x) pmEx 0 "p" :=
  ⟨c1_pure_compile_time_dispatch.1 (DestType.itkSize 3) (by decide)
      Int Int MatlabClass.mxDouble (fun x => x) pmEx 1 "p",
    c1_pure_compile_time_dispatch.2
      (DestType.cgalPoint3 CgalKernel.simpleCartesianDouble) (by decide)
      Int Int MatlabClass.mxDouble (fun x => x) pmEx 0 "p"⟩

/-- C2: on a well-typed input with `N` columns and an in-range row, the
row read succeeds with a vector of exactly `N` elements whose `j`-th
element is the converted scalar at position `(row, j)`, and the result
depends on no part of the input beyond those `N` scalars (and the
dimensions and class id it checks). -/
theorem c2_row_read_correct :
    ∀ (α β : Type) (expected : MatlabClass) (conv : α → β) (N : Nat)
      (pm : MxArray α) (row : Nat) (paramName : String),
      pm.classId = expected → pm.cols = N → row < pm.rows →
      ∃ l : List β,
        ReadItkRowVector expected conv N pm row paramName = Except.ok l
        ∧ l.length = N
        ∧ (∀ j : Nat, j < N → l[j]? = some (conv (pm.entry row j)))
        ∧ (∀ pm' : MxArray α, pm'.classId = pm.classId → pm'.cols = pm.cols →
            (∀ j : Nat, j < N → pm'.entry row j = pm.entry row j) →
            ReadItkRowVector expected conv N pm' row paramName
              = ReadItkRowVector expected conv N pm row paramName) := by
  intro α β expected conv N pm row paramName hc hN _hrow
  refine ⟨(List.range N).map fun j => conv (pm.entry row j), ?_, ?_, ?_, ?_⟩
  · simp [ReadItkRowVector, hc, hN]
  · simp
  · intro j hj
    simp [List.getElem?_map, List.getElem?_range, hj]
  · intro pm' h1 h2 h3
    have hc' : pm'.classId = expected := h1.trans hc
    have hN' : pm'.cols = N := h2.trans hN
    simp only [ReadItkRowVector, hc, hN, hc', hN', and_self, if_true]
    congr 1
    refine List.map_congr_left ?_
    intro j hj
    rw [h3 j (List.mem_range.mp hj)]

/-- Closed witness for C2 on the concrete array `pmEx`, row 1. -/
theorem c2_witness :
    ∃ l : List Int,
      ReadItkRowVector MatlabClass.mxDouble (fun x : Int => x) 3 pmEx 1 "p" = Except.ok l
      ∧ l.length = 3
      ∧ (∀ j : Nat, j < 3 → l[j]? = some (pmEx.entry 1 j))
      ∧ (∀ pm' : MxArray Int, pm'.classId = pmEx.classId → pm'.cols = pmEx.cols →
          (∀ j : Nat, j < 3 → pm'.entry 1 j = pmEx.entry 1 j) →
          ReadItkRowVector MatlabClass.mxDouble (fun x : Int => x) 3 pm' 1 "p"
            = ReadItkRowVector MatlabClass.mxDouble (fun x : Int => x) 3 pmEx 1 "p") :=
  c2_row_read_correct Int Int MatlabClass.mxDouble (fun x => x) 3 pmEx 1 "p"
    rfl rfl (by decide)

/-- C3 counterexample: it is false that every specialisation exposes the
same set of read operations as the default `std::vector` implementation —
the CGAL specialisation for `Point_3<Simple_cartesian<double>>` exposes a
different set. -/
theorem c3_counterexample :
    ¬ (∀ d : DestType, interfaceOf (dispatch d) = interfaceOf Routine.defaultStdVector) := by
  intro h
  exact absurd (h (DestType.cgalPoint3 CgalKernel.simpleCartesianDouble)) (by decide)

/-- C3 amended: every specialisation exposes the row read
`ReadRowVector(pm, row, paramName)`, but the specialised interfaces are
strict subsets of the default one plus CGAL's extra overload: only the
default exposes `ReadArrayAsVector`, and `ReadSize`/`ReadHalfSize` are
exposed everywhere except the CGAL specialisations. -/
theorem c3_amended_uniform_row_read :
    (∀ r : Routine, ReadOp.readRowVector ∈ interfaceOf r)
    ∧ (∀ r : Routine, r ≠ Routine.defaultStdVector →
        ReadOp.readArrayAsVector ∉ interfaceOf r)
    ∧ (∀ r : Routine, ReadOp.readSize ∈ interfaceOf r ↔ r ≠ Routine.cgalRoutine)
    ∧ (∀ r : Routine, ReadOp.readHalfSize ∈ interfaceOf r ↔ r ≠ Routine.cgalRoutine) := by
  refine ⟨?_, ?_, ?_, ?_⟩ <;> intro r <;> cases r <;> decide

/-- Closed witness for the amended C3 at the ITK specialisation. -/
theorem c3_witness :
    ReadOp.readRowVector ∈ interfaceOf Routine.itkRoutine
    ∧ ReadOp.readArrayAsVector ∉ interfaceOf Routine.itkRoutine :=
  ⟨c3_amended_uniform_row_read.1 Routine.itkRoutine,
    c3_amended_uniform_row_read.2.1 Routine.itkRoutine (by decide)⟩

/-- C4: each read operation succeeds exactly when the Matlab input's
class id matches the expected `MatlabValueType` and (for the fixed-size
destinations) the number of columns matches the destination's length;
and the wrapper member propagates the helper's error to the caller
unmodified. -/
theorem c4_fail_iff_mismatch :
    ∀ (α β : Type) (expected : MatlabClass) (conv : α → β) (convN : α → Nat) (N : Nat)
      (pm : MxArray α) (row : Nat) (paramName : String),
      ((∃ l, ReadItkRowVector expected conv N pm row paramName = Except.ok l)
        ↔ (pm.classId = expected ∧ pm.cols = N))
      ∧ ((∃ l, ReadCgalRowVector expected conv pm row paramName = Except.ok l)
        ↔ (pm.classId = expected ∧ pm.cols = 3))
      ∧ ((∃ l, ReadItkSize expected convN N pm paramName = Except.ok l)
        ↔ (pm.classId = expected ∧ pm.cols = N))
      ∧ ((∃ l, ReadItkHalfSize expected convN N pm paramName = Except.ok l)
        ↔ (pm.classId = expected ∧ pm.cols = N))
      ∧ ((∃ l, stdReadRowVector expected conv pm row paramName = Except.ok l)
        ↔ pm.classId = expected)
      ∧ ((∃ l, stdReadArrayAsVector expected conv pm paramName = Except.ok l)
        ↔ pm.classId = expected)
      ∧ (∀ (d : DestType) (e : String), dispatch d = Routine.itkRoutine →
          ReadItkRowVector expected conv (fixedDim d) pm row paramName = Except.error e →
          wrapperReadRowVector d expected conv pm row paramName = Except.error e) := by
  intro α β expected conv convN N pm row paramName
  refine ⟨?_, ?_, ?_, ?_, ?_, ?_, ?_⟩
  · exact exists_ok_ite _ _
  · exact exists_ok_ite _ _
  · exact exists_ok_ite _ _
  · exact exists_ok_ite _ _
  · exact exists_ok_ite _ _
  · exact exists_ok_ite _ _
  · intro d e hd he
    simp [wrapperReadRowVector, hd, he]

/-- Closed witness for C4: success on the well-typed, well-sized `pmEx`
and unmodified error propagation on the ill-typed `pmBad`. -/
theorem c4_witness :
    ((∃ l, ReadItkRowVector MatlabClass.mxDouble (fun x : Int => x) 3 pmEx 0 "p"
        = Except.ok l)
      ↔ (pmEx.classId = MatlabClass.mxDouble ∧ pmEx.cols = 3))
    ∧ wrapperReadRowVector (DestType.itkSize 3) MatlabClass.mxDouble
        (fun x : Int => x) pmBad 0 "p"
      = Except.error ("p" ++ " must be a numeric row vector of the expected type and length") :=
  ⟨(c4_fail_iff_mismatch Int Int MatlabClass.mxDouble (fun x => x) (fun _ => 0) 3
      pmEx 0 "p").1,
    (c4_fail_iff_mismatch Int Int MatlabClass.mxDouble (fun x => x) (fun _ => 0) 3
      pmBad 0 "p").2.2.2.2.2.2 (DestType.itkSize 3) _ (by decide) rfl⟩

/-- C5: the destinations routed to a specialised conversion are exactly
the ITK types `itk::Size`, `itk::FixedArray`, `itk::Point` and
`itk::Vector` of dimensions 2, 3 and 4 and the CGAL types `Point_3` over
the three kernels and `Direction_3` over `Simple_cartesian<double>`; any
other destination type selects the default `std::vector`-style
routine. -/
theorem c5_supported_destinations :
    ∀ d : DestType,
      (dispatch d = Routine.itkRoutine ↔
        (∃ n, (n = 2 ∨ n = 3 ∨ n = 4) ∧
          (d = DestType.itkSize n ∨ d = DestType.itkFixedArray n
            ∨ d = DestType.itkPoint n ∨ d = DestType.itkVector n)))
      ∧ (dispatch d = Routine.cgalRoutine ↔
        (d = DestType.cgalPoint3 CgalKernel.simpleCartesianDouble
          ∨ d = DestType.cgalPoint3 CgalKernel.exactPredicatesExactConstructions
          ∨ d = DestType.cgalPoint3 CgalKernel.exactPredicatesInexactConstructions
          ∨ d = DestType.cgalDirection3 CgalKernel.simpleCartesianDouble)) := by
  intro d
  constructor
  · cases d with
    | stdVector => simp [dispatch]
    | otherType s => simp [dispatch]
    | cgalPoint3 k => simp [dispatch]
    | cgalDirection3 k => cases k <;> simp [dispatch]
    | itkSize n => by_cases h : n = 2 ∨ n = 3 ∨ n = 4 <;> simp [dispatch, h]
    | itkFixedArray n => by_cases h : n = 2 ∨ n = 3 ∨ n = 4 <;> simp [dispatch, h]
    | itkPoint n => by_cases h : n = 2 ∨ n = 3 ∨ n = 4 <;> simp [dispatch, h]
    | itkVector n => by_cases h : n = 2 ∨ n = 3 ∨ n = 4 <;> simp [dispatch, h]
  · cases d with
    | stdVector => simp [dispatch]
    | otherType s => simp [dispatch]
    | cgalPoint3 k => cases k <;> simp [dispatch]
    | cgalDirection3 k => cases k <;> simp [dispatch]
    | itkSize n => by_cases h : n = 2 ∨ n = 3 ∨ n = 4 <;> simp [dispatch, h]
    | itkFixedArray n => by_cases h : n = 2 ∨ n = 3 ∨ n = 4 <;> simp [dispatch, h]
    | itkPoint n => by_cases h : n = 2 ∨ n = 3 ∨ n = 4 <;> simp [dispatch, h]
    | itkVector n => by_cases h : n = 2 ∨ n = 3 ∨ n = 4 <;> simp [dispatch, h]

/-- C6: the wrapper is stateless — the class has no data members (all
its values are equal), and a member call returns the wrapper object and
the input array unchanged, with a result independent of which wrapper
object it was called on. -/
theorem c6_stateless :
    (∀ w w' : VectorWrapper, w = w')
    ∧ (∀ (α β : Type) (w w' : VectorWrapper) (d : DestType) (expected : MatlabClass)
        (conv : α → β) (pm : MxArray α) (row : Nat) (paramName : String),
        (VectorWrapper.callReadRowVector w d expected conv pm row paramName).2.1 = w
        ∧ (VectorWrapper.callReadRowVector w d expected conv pm row paramName).2.2 = pm
        ∧ (VectorWrapper.callReadRowVector w d expected conv pm row paramName).1
            = (VectorWrapper.callReadRowVector w' d expected conv pm row paramName).1) := by
  constructor
  · intro w w'
    cases w
    cases w'
    rfl
  · intro α β w w' d expected conv pm row paramName
    exact ⟨rfl, rfl, rfl⟩

/-- C7: in the CGAL specialisations the `VectorValueType` template
argument is ignored — two instantiations differing only in it compute
the same function on all inputs (so it may be set to `void`). -/
theorem c7_vvt_ignored :
    ∀ (t t' : CppScalarTag) (α β : Type) (expected : MatlabClass) (conv : α → β)
      (pm : MxArray α) (row : Nat) (paramName : String),
      VectorWrapperCgal.ReadRowVector t expected conv pm row paramName
        = VectorWrapperCgal.ReadRowVector t' expected conv pm row paramName
      ∧ VectorWrapperCgal.ReadRowVectorNoRow t expected conv pm paramName
        = VectorWrapperCgal.ReadRowVectorNoRow t' expected conv pm paramName := by
  intro t t' α β expected conv pm row paramName
  exact ⟨rfl, rfl⟩

/-- C8: the CGAL one-argument overload `ReadRowVector(pm, paramName)`
equals the two-argument overload applied to row 0, and this overload
exists exactly in the CGAL specialisations. -/
theorem c8_single_row_overload :
    (∀ (t : CppScalarTag) (α β : Type) (expected : MatlabClass) (conv : α → β)
      (pm : MxArray α) (paramName : String),
      VectorWrapperCgal.ReadRowVectorNoRow t expected conv pm paramName
        = VectorWrapperCgal.ReadRowVector t expected conv pm 0 paramName)
    ∧ (∀ r : Routine, ReadOp.readRowVectorNoRow ∈ interfaceOf r ↔ r = Routine.cgalRoutine) := by
  constructor
  · intro t α β expected conv pm paramName
    rfl
  · intro r
    cases r <;> decide

/-- C9: whenever `ReadItkHalfSize` accepts its input, every element of
the returned vector is `2 * m + 1` for the corresponding scalar `m` read
from the Matlab input, and in particular every element is odd. -/
theorem c9_halfsize_odd :
    ∀ (α : Type) (expected : MatlabClass) (conv : α → Nat) (N : Nat)
      (pm : MxArray α) (paramName : String) (l : List Nat),
      ReadItkHalfSize expected conv N pm paramName = Except.ok l →
      l.length = N
      ∧ (∀ j : Nat, j < N → l[j]? = some (2 * conv (pm.entry 0 j) + 1))
      ∧ (∀ v ∈ l, Odd v) := by
  intro α expected conv N pm paramName l hl
  simp only [ReadItkHalfSize] at hl
  split_ifs at hl with h
  · injection hl with hl
    subst hl
    refine ⟨by simp, ?_, ?_⟩
    · intro j hj
      simp [List.getElem?_map, List.getElem?_range, hj]
    · intro v hv
      simp only [List.mem_map, List.mem_range] at hv
      obtain ⟨j, _, hj⟩ := hv
      exact hj ▸ Nat.odd_iff.mpr (by omega)

/-- Concrete 1-by-2 array of half sizes used by the C9 witness. -/
def pmNat : MxArray Nat :=
  { classId := MatlabClass.mxDouble, rows := 1, cols := 2,
    entry := fun _ j => 2 * j }

/-- Closed witness for C9 on the concrete array `pmNat`, whose accepted
read returns `[1, 5]`. -/
theorem c9_witness :
    ([1, 5] : List Nat).length = 2
    ∧ (∀ j : Nat, j < 2 → ([1, 5] : List Nat)[j]? = some (2 * pmNat.entry 0 j + 1))
    ∧ (∀ v ∈ ([1, 5] : List Nat), Odd v) :=
  c9_halfsize_odd Nat MatlabClass.mxDouble (fun x => x) 2 pmNat "p" [1, 5] (by rfl)
